import Mathlib

set_option maxRecDepth 100000

namespace SavingWork

/-! ## 32-bit word arithmetic and the MD5 digest (RFC 1321)

The signing code in `server.js` computes
`crypto.createHash('md5').update(stringToHash).digest('hex')`.  We model the
digest concretely: machine words are `Nat` reduced modulo `2^32` explicitly,
bytes are `Nat` below 256, and the hex rendering is lowercase, matching
Node's `digest('hex')`. -/

/-- Addition modulo 2^32. -/
def add32 (a b : Nat) : Nat := (a + b) % 4294967296

/-- Left-rotation of a 32-bit word by `s` places. -/
def rotl32 (x s : Nat) : Nat := ((x <<< s) ||| (x >>> (32 - s))) % 4294967296

/-- Bitwise complement of a 32-bit word. -/
def not32 (x : Nat) : Nat := x ^^^ 4294967295

/-- The 64 sine-derived round constants of RFC 1321. -/
def md5K : List Nat :=
  [0xd76aa478, 0xe8c7b756, 0x242070db, 0xc1bdceee,
   0xf57c0faf, 0x4787c62a, 0xa8304613, 0xfd469501,
   0x698098d8, 0x8b44f7af, 0xffff5bb1, 0x895cd7be,
   0x6b901122, 0xfd987193, 0xa679438e, 0x49b40821,
   0xf61e2562, 0xc040b340, 0x265e5a51, 0xe9b6c7aa,
   0xd62f105d, 0x02441453, 0xd8a1e681, 0xe7d3fbc8,
   0x21e1cde6, 0xc33707d6, 0xf4d50d87, 0x455a14ed,
   0xa9e3e905, 0xfcefa3f8, 0x676f02d9, 0x8d2a4c8a,
   0xfffa3942, 0x8771f681, 0x6d9d6122, 0xfde5380c,
   0xa4beea44, 0x4bdecfa9, 0xf6bb4b60, 0xbebfbc70,
   0x289b7ec6, 0xeaa127fa, 0xd4ef3085, 0x04881d05,
   0xd9d4d039, 0xe6db99e5, 0x1fa27cf8, 0xc4ac5665,
   0xf4292244, 0x432aff97, 0xab9423a7, 0xfc93a039,
   0x655b59c3, 0x8f0ccc92, 0xffeff47d, 0x85845dd1,
   0x6fa87e4f, 0xfe2ce6e0, 0xa3014314, 0x4e0811a1,
   0xf7537e82, 0xbd3af235, 0x2ad7d2bb, 0xeb86d391]

/-- Per-step left-rotation amounts of RFC 1321. -/
def md5S : List Nat :=
  [7, 12, 17, 22, 7, 12, 17, 22, 7, 12, 17, 22, 7, 12, 17, 22,
   5, 9, 14, 20, 5, 9, 14, 20, 5, 9, 14, 20, 5, 9, 14, 20,
   4, 11, 16, 23, 4, 11, 16, 23, 4, 11, 16, 23, 4, 11, 16, 23,
   6, 10, 15, 21, 6, 10, 15, 21, 6, 10, 15, 21, 6, 10, 15, 21]

/-- The `j`-th little-endian 32-bit word of a 64-byte block. -/
def blockWord (block : List Nat) (j : Nat) : Nat :=
  block.getD (4 * j) 0 + 256 * block.getD (4 * j + 1) 0 +
    65536 * block.getD (4 * j + 2) 0 + 16777216 * block.getD (4 * j + 3) 0

/-- One of the 64 MD5 steps; state is the word quadruple (a, b, c, d). -/
def md5Step (block : List Nat) (st : Nat × Nat × Nat × Nat) (i : Nat) :
    Nat × Nat × Nat × Nat :=
  let (a, b, c, d) := st
  let f :=
    if i < 16 then (b &&& c) ||| (not32 b &&& d)
    else if i < 32 then (d &&& b) ||| (not32 d &&& c)
    else if i < 48 then b ^^^ c ^^^ d
    else c ^^^ (b ||| not32 d)
  let g :=
    if i < 16 then i
    else if i < 32 then (5 * i + 1) % 16
    else if i < 48 then (3 * i + 5) % 16
    else (7 * i) % 16
  let r := add32 b (rotl32 (add32 (add32 (add32 a f) (md5K.getD i 0)) (blockWord block g))
    (md5S.getD i 0))
  (d, r, b, c)

/-- Compression of one 64-byte block into the running state. -/
def md5Compress (st : Nat × Nat × Nat × Nat) (block : List Nat) : Nat × Nat × Nat × Nat :=
  let (a, b, c, d) := (List.range 64).foldl (md5Step block) st
  (add32 st.1 a, add32 st.2.1 b, add32 st.2.2.1 c, add32 st.2.2.2 d)

/-- Little-endian 8-byte rendering of the 64-bit message bit length. -/
def lenBytes (n : Nat) : List Nat :=
  [n % 256, n / 256 % 256, n / 65536 % 256, n / 16777216 % 256,
   n / 4294967296 % 256, n / 1099511627776 % 256,
   n / 281474976710656 % 256, n / 72057594037927936 % 256]

/-- Little-endian 4-byte rendering of a 32-bit word. -/
def leBytes4 (x : Nat) : List Nat :=
  [x % 256, x / 256 % 256, x / 65536 % 256, x / 16777216 % 256]

/-- RFC 1321 padding: a 0x80 byte, zeros up to 56 mod 64, then the bit length. -/
def md5Pad (msg : List Nat) : List Nat :=
  msg ++ (128 :: List.replicate ((119 - (msg.length % 64)) % 64) 0) ++ lenBytes (8 * msg.length)

/-- Cutting of a padded message into `n` blocks of 64 bytes. -/
def md5Blocks : Nat → List Nat → List (List Nat)
  | 0, _ => []
  | n + 1, l => l.take 64 :: md5Blocks n (l.drop 64)

/-- MD5 digest of a byte sequence, as the list of its 16 digest bytes. -/
def md5Bytes (msg : List Nat) : List Nat :=
  let padded := md5Pad msg
  let st := (md5Blocks (padded.length / 64) padded).foldl md5Compress
    (0x67452301, 0xefcdab89, 0x98badcfe, 0x10325476)
  leBytes4 st.1 ++ leBytes4 st.2.1 ++ leBytes4 st.2.2.1 ++ leBytes4 st.2.2.2

/-- Lowercase hex digit character for an index below 16 (digits, then 'a'..'f'). -/
def hexDigit (j : Nat) : Char :=
  if j < 10 then Char.ofNat (48 + j) else Char.ofNat (87 + j)

/-- The sixteen lowercase hexadecimal digit characters. -/
def hexDigits : List Char := (List.range 16).map hexDigit

/-- Lowercase hex character for `n % 16`. -/
def hexChar (n : Nat) : Char := hexDigit (n % 16)

/-- Rendering of a byte list as lowercase hexadecimal characters. -/
def bytesToHex (bs : List Nat) : List Char :=
  bs.foldr (fun b acc => hexChar (b / 16) :: hexChar b :: acc) []

/-- UTF-8 encoding of one character. -/
def utf8Char (c : Char) : List Nat :=
  let n := c.toNat
  if n < 128 then [n]
  else if n < 2048 then [192 + n / 64, 128 + n % 64]
  else if n < 65536 then [224 + n / 4096, 128 + n / 64 % 64, 128 + n % 64]
  else [240 + n / 262144, 128 + n / 4096 % 64, 128 + n / 64 % 64, 128 + n % 64]

/-- UTF-8 bytes of a string. -/
def strBytes (s : String) : List Nat := s.data.foldr (fun c acc => utf8Char c ++ acc) []

/-- Model of `crypto.createHash('md5').update(s).digest('hex')`: the MD5 digest
of the UTF-8 bytes of `s`, rendered as lowercase hexadecimal. -/
def md5Hex (s : String) : String := String.mk (bytesToHex (md5Bytes (strBytes s)))

/-- Validation of the digest model on the RFC 1321 test vector for the empty string. -/
theorem md5_rfc_empty : md5Hex "" = "d41d8cd98f00b204e9800998ecf8427e" := by decide

/-- Validation of the digest model on the RFC 1321 test vector for "abc". -/
theorem md5_rfc_abc : md5Hex "abc" = "900150983cd24fb0d6963f7d28e17f72" := by decide

/-! ## JavaScript string primitives used by the signing code

These model the exact library calls the source makes: `String.prototype.trim`,
`encodeURIComponent`, `.replace(/%20/g, '+')`, `parseFloat`,
`Number.prototype.toFixed(2)`, `Array.prototype.join('&')`, string coercion of
`undefined`, and truthiness of strings and numbers. -/

/-- Whitespace characters recognised by `String.prototype.trim` (ASCII part). -/
def jsWS (c : Char) : Bool :=
  c = ' ' || c = '\t' || c = '\n' || c = '\r' || c = '\x0b' || c = '\x0c'

/-- Model of `String.prototype.trim`: strip leading and trailing whitespace. -/
def jsTrim (s : String) : String :=
  String.mk (((s.data.dropWhile jsWS).reverse.dropWhile jsWS).reverse)

/-- Model of JavaScript `String(x)` on a possibly-undefined environment value:
`String(undefined)` is the literal text "undefined". -/
def jsStringOfEnv : Option String → String
  | some s => s
  | none => "undefined"

/-- Model of the JavaScript `a || b` on possibly-undefined strings: `a` when
`a` is truthy (present and nonempty), else `b`. -/
def jsOr (a b : Option String) : Option String :=
  match a with
  | some s => if s = "" then b else some s
  | none => b

/-- Truthiness of a possibly-undefined string: present and nonempty. -/
def truthyStr : Option String → Bool
  | none => false
  | some s => s != ""

/-- Truthiness of a possibly-NaN number: a number and nonzero. -/
def truthyNum : Option ℚ → Bool
  | none => false
  | some q => q != 0

/-- Characters that `encodeURIComponent` leaves unescaped:
ASCII alphanumerics and `- _ . ! ~ * ' ( )`. -/
def uriUnreserved (c : Char) : Bool :=
  ('A' ≤ c && c ≤ 'Z') || ('a' ≤ c && c ≤ 'z') || ('0' ≤ c && c ≤ '9') ||
    c = '-' || c = '_' || c = '.' || c = '!' || c = '~' || c = '*' || c = '\'' ||
    c = '(' || c = ')'

/-- Uppercase hex digit character for an index below 16 (digits, then 'A'..'F'),
as percent escapes use. -/
def hexDigitU (j : Nat) : Char :=
  if j < 10 then Char.ofNat (48 + j) else Char.ofNat (55 + j)

/-- Uppercase hex character for `n % 16`. -/
def hexCharU (n : Nat) : Char := hexDigitU (n % 16)

/-- Percent escape of one byte, e.g. `%2F`. -/
def pctByte (b : Nat) : List Char := ['%', hexCharU (b / 16), hexCharU b]

/-- Model of JavaScript `encodeURIComponent`: unreserved characters stand as
themselves, every other character becomes the percent escapes of its UTF-8
bytes. -/
def encodeURIComponent (s : String) : String :=
  String.mk (s.data.foldr
    (fun c acc =>
      (if uriUnreserved c then [c]
       else (utf8Char c).foldr (fun b a2 => pctByte b ++ a2) []) ++ acc)
    [])

/-- Model of `.replace(/%20/g, '+')`: replace every occurrence of `%20`,
left to right. -/
def replacePct20 : List Char → List Char
  | '%' :: '2' :: '0' :: rest => '+' :: replacePct20 rest
  | c :: rest => c :: replacePct20 rest
  | [] => []

/-- The value encoding of the signing code:
`encodeURIComponent(value).replace(/%20/g, '+')`. -/
def formEncode (s : String) : String :=
  String.mk (replacePct20 (encodeURIComponent s).data)

/-- Model of `Array.prototype.join('&')`. -/
def joinAmp : List String → String
  | [] => ""
  | [x] => x
  | x :: xs => x ++ "&" ++ joinAmp xs

/-- Decimal digit character for `n % 10`. -/
def decChar (n : Nat) : Char := Char.ofNat (48 + n % 10)

/-- Decimal digit characters of a natural number, most significant first. -/
def natDigits (n : Nat) : List Char :=
  if n < 10 then [decChar n]
  else natDigits (n / 10) ++ [decChar n]
termination_by n
decreasing_by exact Nat.div_lt_self (by omega) (by omega)

/-- Decimal rendering of a natural number. -/
def natToString (n : Nat) : String := String.mk (natDigits n)

/-- Numeric value of a list of decimal digit characters. -/
def digitsToNat (l : List Char) : Nat := l.foldl (fun a c => 10 * a + (c.toNat - 48)) 0

/-- Exponent part of a JavaScript float literal, after the `e`/`E`. -/
def expOf (r : List Char) : ℤ :=
  let (es, r1) : ℤ × List Char :=
    match r with
    | '-' :: t => (-1, t)
    | '+' :: t => (1, t)
    | _ => (1, r)
  let ds := r1.takeWhile Char.isDigit
  if ds.isEmpty then 0 else es * digitsToNat ds

/-- Model of JavaScript `parseFloat` on decimal notation: skip leading
whitespace, read an optional sign, integer digits, an optional fraction and an
optional exponent, ignoring any trailing garbage; `none` models NaN. -/
def parseFloatQ (s : String) : Option ℚ :=
  let l := s.data.dropWhile jsWS
  let (sgn, l1) : ℚ × List Char :=
    match l with
    | '-' :: r => (-1, r)
    | '+' :: r => (1, r)
    | _ => (1, l)
  let intDs := l1.takeWhile Char.isDigit
  let rest1 := l1.dropWhile Char.isDigit
  let (fracDs, rest2) : List Char × List Char :=
    match rest1 with
    | '.' :: r => (r.takeWhile Char.isDigit, r.dropWhile Char.isDigit)
    | _ => ([], rest1)
  if intDs.isEmpty && fracDs.isEmpty then none
  else
    let mant : ℚ := (digitsToNat intDs : ℚ) + (digitsToNat fracDs : ℚ) / ((10 : ℚ) ^ fracDs.length)
    let e : ℤ :=
      match rest2 with
      | 'e' :: r => expOf r
      | 'E' :: r => expOf r
      | _ => 0
    some (sgn * mant * (10 : ℚ) ^ e)

/-- Two-decimal rendering of a nonnegative rational: the integer nearest to
`q * 100` (ties away from zero), split as integer part and two fraction
digits. -/
def toFixed2Pos (q : ℚ) : String :=
  let n := (Rat.floor (q * 100 + 1 / 2)).toNat
  natToString (n / 100) ++ "." ++ (if n % 100 < 10 then "0" else "") ++ natToString (n % 100)

/-- Model of `Number.prototype.toFixed(2)` on an exactly-represented number:
round to the nearest hundredth (ties toward the larger result) and render with
exactly two fraction digits. -/
def toFixed2 (q : ℚ) : String :=
  if q < 0 then "-" ++ toFixed2Pos (-q) else toFixed2Pos q

/-- Check that `pat` begins `l`. -/
def leadsWith : List Char → List Char → Bool
  | p :: ps, c :: cs => p == c && leadsWith ps cs
  | [], _ => true
  | _, [] => false

/-- Check that `pat` occurs inside `l`. -/
def hasSubstrL (pat : List Char) : List Char → Bool
  | [] => leadsWith pat []
  | c :: t => leadsWith pat (c :: t) || hasSubstrL pat t

/-- Check that `pat` occurs inside `s`. -/
def hasSubstr (s pat : String) : Bool := hasSubstrL pat.data s.data

/-- Code-unit-wise string comparison, as JavaScript's default sort uses. -/
def charListLe : List Char → List Char → Bool
  | x :: xs, y :: ys =>
    if x.toNat < y.toNat then true
    else if y.toNat < x.toNat then false
    else charListLe xs ys
  | [], _ => true
  | _, [] => false

/-- String comparison for the key sort. -/
def strLe (a b : String) : Bool := charListLe a.data b.data

/-- Insertion into a sorted list of strings. -/
def insertStr (s : String) : List String → List String
  | [] => [s]
  | x :: xs => if strLe s x then s :: x :: xs else x :: insertStr s xs

/-- Model of `Object.keys(params).sort()`: lexicographic string sort. -/
def sortStrings : List String → List String
  | [] => []
  | x :: xs => insertStr x (sortStrings xs)

/-! ## The signature builder (`generatePayFastSignature`, server.js lines 293-331)

A parameter mapping is an insertion-ordered association list; a value is
`Option String`, where `none` stands for a JavaScript `undefined` or `null`
field. -/

/-- Result object of `generatePayFastSignature`. -/
structure SignatureResult where
  signature : String
  paramString : String
  stringToHash : String
  paramOrder : List String
deriving Repr, DecidableEq

/-- Model of `generatePayFastSignature(params, passphrase)` of server.js:
drop entries whose value is undefined, null or the empty string, keep insertion
order; build `key=encodedValue` pairs from the trimmed, form-encoded values;
join with `&`; append `&passphrase=` and the trimmed passphrase; MD5 the
result. -/
def generatePayFastSignature (params : List (String × Option String)) (passphrase : String) :
    SignatureResult :=
  let orderedParams := params.filter (fun kv => kv.2 != none && kv.2 != some "")
  let paramPairs := orderedParams.map
    (fun kv => kv.1 ++ "=" ++ formEncode (jsTrim (kv.2.getD "undefined")))
  let paramString := joinAmp paramPairs
  let cleanPassphrase := jsTrim passphrase
  let stringToHash := paramString ++ "&passphrase=" ++ cleanPassphrase
  { signature := md5Hex stringToHash
    paramString := paramString
    stringToHash := stringToHash
    paramOrder := orderedParams.map (fun kv => kv.1) }

example : formEncode "Savings Deposit" = "Savings+Deposit" := by decide

example : formEncode "https://a.b/c" = "https%3A%2F%2Fa.b%2Fc" := by decide

example : toFixed2 100 = "100.00" := by with_unfolding_all rfl

example : toFixed2 (2469 / 20) = "123.45" := by with_unfolding_all rfl

example : parseFloatQ "100.00" = some 100 := by with_unfolding_all rfl

example : parseFloatQ "abc" = none := by with_unfolding_all rfl

example : parseFloatQ "-2.5e1" = some (-25) := by with_unfolding_all rfl

example : jsTrim "  a b " = "a b" := by decide

/-! ## Data model: users, transactions, payments

The hosted store is modelled as in-memory lists.  The `increment_balance`
RPC's SQL body is declared at server.js line 746:
`UPDATE users SET balance = COALESCE(balance, 0) + amount_input WHERE id =
user_id_input` — an atomic per-row increment.  Balances are rationals (the
shallow embedding of JavaScript numbers); timestamps are not modelled. -/

/-- A row of the `transactions` table, as inserted by the webhook handler. -/
structure Txn where
  user_id : String
  amount : ℚ
  type : String
  status : String
  payment_id : Option String
  reference : Option String
deriving Repr, DecidableEq

/-- A row of the `payments` table. -/
structure Payment where
  payment_id : String
  user_id : String
  amount : ℚ
  status : String
  transaction_id : Option String
deriving Repr, DecidableEq

/-- The store state: user balances keyed by id, the transaction ledger and the
payment records. -/
structure Store where
  users : List (String × ℚ)
  transactions : List Txn
  payments : List Payment
deriving Repr, DecidableEq

/-- Failure injection for the four store writes the webhook handler performs:
the `increment_balance` RPC, the fallback direct balance update, the
transaction insert, and the payment-status update. -/
structure FailFlags where
  rpcFail : Bool
  updateFail : Bool
  txFail : Bool
  payFail : Bool
deriving Repr, DecidableEq

/-- All store operations succeed. -/
def noFail : FailFlags := ⟨false, false, false, false⟩

/-- Trace entry: one store operation attempted by the webhook handler. -/
inductive StoreOp where
  | userSelect (uid : String)
  | rpcIncrement (uid : String) (amt : ℚ)
  | directUpdate (uid : String) (newBalance : ℚ)
  | balanceFetch (uid : String)
  | txInsert (t : Txn)
  | payUpdate (pid : Option String)
deriving Repr, DecidableEq

/-- Store operations that write (reads are `userSelect` and `balanceFetch`). -/
def StoreOp.isWrite : StoreOp → Bool
  | .rpcIncrement _ _ => true
  | .directUpdate _ _ => true
  | .txInsert _ => true
  | .payUpdate _ => true
  | _ => false

/-- Result of one webhook delivery: the HTTP status sent to the gateway, the
final store state, and the trace of attempted store operations. -/
structure NotifyResult where
  status : Nat
  store : Store
  ops : List StoreOp
deriving Repr, DecidableEq

/-! ## The webhook handler (`app.post /api/payfast/notify`, server.js lines 504-666)

server.js registers this route twice; Express dispatches a request to the
first registered matching handler, which responds and never calls `next()`,
so the handler at lines 504-666 is the effective one and the re-registration
at line 4381 is unreachable.  The body has already been parsed into an
ordered field mapping (`Object.fromEntries` over `split('&')`); console
logging and response bodies are dropped. -/

/-- Property access `params[k]` on the parsed parameter object. -/
def lookupParam (params : List (String × String)) (k : String) : Option String :=
  (params.find? (fun kv => kv.1 == k)).map (fun kv => kv.2)

/-- Model of `delete params.signature`. -/
def stripSignature (params : List (String × String)) : List (String × String) :=
  params.filter (fun kv => kv.1 != "signature")

/-- String-valued fields viewed as signature-builder input. -/
def wrapParams (params : List (String × String)) : List (String × Option String) :=
  params.map (fun kv => (kv.1, some kv.2))

/-- Model of `String(process.env.PAYFAST_PASSPHRASE).trim()`: an unset variable
coerces to the literal text "undefined" before trimming. -/
def passphraseOf (env : Option String) : String := jsTrim (jsStringOfEnv env)

/-- The signature the webhook handler recomputes over all fields except the
received `signature` field. -/
def expectedSignature (params : List (String × String)) (env : Option String) : String :=
  (generatePayFastSignature (wrapParams (stripSignature params)) (passphraseOf env)).signature

/-- The handler's signature check `receivedSignature !== expectedSignature`
(negated: `true` means the check passes). -/
def sigOK (params : List (String × String)) (env : Option String) : Bool :=
  lookupParam params "signature" == some (expectedSignature params env)

/-- Model of `params.custom_str1 || params.custom_int1`. -/
def resolveUserId (p : List (String × String)) : Option String :=
  jsOr (lookupParam p "custom_str1") (lookupParam p "custom_int1")

/-- Model of `parseFloat(params.amount_gross || params.amount)`. -/
def resolveAmount (p : List (String × String)) : Option ℚ :=
  (jsOr (lookupParam p "amount_gross") (lookupParam p "amount")).bind parseFloatQ

/-- The `increment_balance` RPC declared at server.js line 746:
`UPDATE users SET balance = COALESCE(balance, 0) + amount_input WHERE id =
user_id_input`. -/
def incrementBalance (users : List (String × ℚ)) (uid : String) (amt : ℚ) :
    List (String × ℚ) :=
  users.map (fun u => if u.1 == uid then (u.1, u.2 + amt) else u)

/-- The fallback write `update({ balance: user.balance + amount })`: store a
precomputed balance read earlier. -/
def setBalance (users : List (String × ℚ)) (uid : String) (nb : ℚ) :
    List (String × ℚ) :=
  users.map (fun u => if u.1 == uid then (u.1, nb) else u)

/-- The transaction row inserted by the handler. -/
def mkTxn (uid : String) (amt : ℚ) (pid ref : Option String) : Txn :=
  { user_id := uid, amount := amt, type := "deposit", status := "completed",
    payment_id := pid, reference := ref }

/-- The payment-record update: mark the matching pending payment completed. -/
def completePayment (ps : List Payment) (pid ref : Option String) : List Payment :=
  ps.map (fun p => if some p.payment_id == pid then
    { p with status := "completed", transaction_id := ref } else p)

/-- Tail of the webhook happy path after the balance was written: re-read the
balance (log only), insert the transaction row (failure only logged), update
the payment record (failure only logged), respond 200. -/
def finishNotify (uid : String) (amt : ℚ) (pid ref : Option String) (store1 : Store)
    (flags : FailFlags) (opsSoFar : List StoreOp) : NotifyResult :=
  let t := mkTxn uid amt pid ref
  let store2 := if flags.txFail then store1
    else { store1 with transactions := store1.transactions ++ [t] }
  let store3 := if flags.payFail then store2
    else { store2 with payments := completePayment store2.payments pid ref }
  ⟨200, store3, opsSoFar ++ [StoreOp.balanceFetch uid, StoreOp.txInsert t, StoreOp.payUpdate pid]⟩

/-- The webhook handler of server.js lines 504-666: verify the recomputed
signature (mismatch: 400, nothing touched); on `payment_status === "COMPLETE"`
resolve user id and amount (`400` if either is falsy), look the user up
(`400` if unknown), increment the balance through the RPC with a single
direct-update fallback (`500` if both fail), then insert the transaction row
and update the payment record, tolerating failure of either; any other status
is acknowledged with 200 untouched. -/
def notifyHandler (params : List (String × String)) (env : Option String) (store : Store)
    (flags : FailFlags) : NotifyResult :=
  if sigOK params env then
    let p := stripSignature params
    if lookupParam p "payment_status" == some "COMPLETE" then
      let userId := resolveUserId p
      let amount := resolveAmount p
      let pid := lookupParam p "m_payment_id"
      let ref := lookupParam p "pf_payment_id"
      if truthyStr userId && truthyNum amount then
        let uid := userId.getD ""
        match store.users.find? (fun u => u.1 == uid) with
        | none => ⟨400, store, [StoreOp.userSelect uid]⟩
        | some u =>
          let amt := amount.getD 0
          if flags.rpcFail then
            if flags.updateFail then
              ⟨500, store, [StoreOp.userSelect uid, StoreOp.rpcIncrement uid amt,
                StoreOp.directUpdate uid (u.2 + amt)]⟩
            else
              finishNotify uid amt pid ref
                { store with users := setBalance store.users uid (u.2 + amt) } flags
                [StoreOp.userSelect uid, StoreOp.rpcIncrement uid amt,
                 StoreOp.directUpdate uid (u.2 + amt)]
          else
            finishNotify uid amt pid ref
              { store with users := incrementBalance store.users uid amt } flags
              [StoreOp.userSelect uid, StoreOp.rpcIncrement uid amt]
      else ⟨400, store, []⟩
    else ⟨200, store, []⟩
  else ⟨400, store, []⟩

/-! ## Payment creation (`app.post /api/payfast/create-payment`, server.js lines 336-421) -/

/-- Environment configuration consumed by the payment endpoints. -/
structure Env where
  merchant_id : Option String
  merchant_key : Option String
  passphrase : Option String
  app_base_url : Option String
  payfast_base_url : Option String
deriving Repr, DecidableEq

/-- The ordered `data` object built by create-payment, with the amount already
fixed to two decimals (`String(parseFloat(amount).toFixed(2)).trim()`). -/
def createPaymentData (q : ℚ) (uid : String) (now : Nat) (env : Env) :
    List (String × String) :=
  [("merchant_id", jsTrim (jsStringOfEnv env.merchant_id)),
   ("merchant_key", jsTrim (jsStringOfEnv env.merchant_key)),
   ("return_url", jsTrim (jsStringOfEnv env.app_base_url ++ "/payment/success")),
   ("cancel_url", jsTrim (jsStringOfEnv env.app_base_url ++ "/payment/cancel")),
   ("notify_url", jsTrim (jsStringOfEnv env.app_base_url ++ "/payfast/notify")),
   ("m_payment_id", jsTrim ("pay_" ++ natToString now)),
   ("amount", jsTrim (toFixed2 q)),
   ("item_name", jsTrim "Savings Deposit"),
   ("custom_str1", jsTrim uid)]

/-- Result of create-payment: status, redirect URL, payment id, the query
pairs the URL was built from, and the store (a pending payment row is
recorded unless that bookkeeping write fails, which is non-fatal). -/
structure CreatePaymentResult where
  status : Nat
  url : Option String
  payment_id : Option String
  queryPairs : List (String × String)
  store : Store
deriving Repr, DecidableEq

/-- One `encodeURIComponent(key)=encodeURIComponent(value)` query pair. -/
def encPair (kv : String × String) : String :=
  encodeURIComponent kv.1 ++ "=" ++ encodeURIComponent kv.2

/-- The create-payment endpoint: validate amount and user id, build the
ordered data object with the two-decimal amount, sign it, append the
signature as the final query parameter, record a pending payment
(non-fatally), and return the redirect URL.  `now` models `Date.now()`. -/
def createPayment (amount : Option ℚ) (userId : Option String) (now : Nat) (env : Env)
    (store : Store) (pendingFail : Bool) : CreatePaymentResult :=
  if !(truthyNum amount && truthyStr userId) then ⟨400, none, none, [], store⟩
  else if amount.getD 0 ≤ 0 then ⟨400, none, none, [], store⟩
  else
    let q := amount.getD 0
    let uid := userId.getD ""
    let paymentId := "pay_" ++ natToString now
    let data := createPaymentData q uid now env
    let sig := generatePayFastSignature (wrapParams data) (passphraseOf env.passphrase)
    let dataWithSig := data ++ [("signature", sig.signature)]
    let url := jsStringOfEnv env.payfast_base_url ++ "?" ++ joinAmp (dataWithSig.map encPair)
    let store' := if pendingFail then store
      else { store with payments := store.payments ++
        [{ payment_id := paymentId, user_id := uid, amount := q, status := "pending",
           transaction_id := none }] }
    ⟨200, some url, some paymentId, dataWithSig, store'⟩

/-! ## The diagnostic script's signature builder
(`buildPayFastSignature`, src/unnamed/part_004 lines 32-45) -/

/-- Property read `params[key]` where the key is known to be present. -/
def objGet (params : List (String × String)) (k : String) : String :=
  ((params.find? (fun kv => kv.1 == k)).map (fun kv => kv.2)).getD "undefined"

/-- The string hashed by part_004's `buildPayFastSignature`: keys sorted,
values form-encoded (no trimming, no empty-dropping), and a passphrase
segment appended only when `process.env.PAYFAST_PASSPHRASE` is truthy. -/
def buildPayFastSignatureString (params : List (String × String)) (passEnv : Option String) :
    String :=
  let paramString := joinAmp ((sortStrings (params.map (fun kv => kv.1))).map
    (fun k => k ++ "=" ++ formEncode (objGet params k)))
  if truthyStr passEnv then paramString ++ "&passphrase=" ++ jsStringOfEnv passEnv
  else paramString

/-- Model of part_004's `buildPayFastSignature`. -/
def buildPayFastSignature (params : List (String × String)) (passEnv : Option String) :
    String :=
  md5Hex (buildPayFastSignatureString params passEnv)

/-- The signature issued for a field mapping under a secret (server.js line 374
and analogous call sites). -/
def signFields (fields : List (String × String)) (secret : String) : String :=
  (generatePayFastSignature (wrapParams fields) secret).signature

/-- The verification comparison of the webhook path (server.js lines 528-542):
recompute the signature over the fields under the secret and compare with the
received digest. -/
def verifySig (fields : List (String × String)) (secret : String) (received : String) :
    Bool :=
  received == signFields fields secret

/-! ## General lemmas about the handler -/

/-- Signature mismatch takes the handler straight to the 400 branch with no
store interaction. -/
theorem notifyHandler_of_bad_sig (params : List (String × String)) (env : Option String)
    (store : Store) (flags : FailFlags) (h : sigOK params env = false) :
    notifyHandler params env store flags = ⟨400, store, []⟩ := by
  simp [notifyHandler, h]

/-- A non-COMPLETE payment status is acknowledged with 200 and no store
interaction. -/
theorem notifyHandler_of_not_complete (params : List (String × String)) (env : Option String)
    (store : Store) (flags : FailFlags) (h : sigOK params env = true)
    (h2 : (lookupParam (stripSignature params) "payment_status" == some "COMPLETE") = false) :
    notifyHandler params env store flags = ⟨200, store, []⟩ := by
  simp [notifyHandler, h, h2]

/-- With a falsy user id or falsy amount the COMPLETE branch stops at
`Missing data` with no store interaction. -/
theorem notifyHandler_of_missing_data (params : List (String × String)) (env : Option String)
    (store : Store) (flags : FailFlags) (h : sigOK params env = true)
    (h2 : lookupParam (stripSignature params) "payment_status" = some "COMPLETE")
    (h3 : (truthyStr (resolveUserId (stripSignature params)) &&
      truthyNum (resolveAmount (stripSignature params))) = false) :
    notifyHandler params env store flags = ⟨400, store, []⟩ := by
  simp only [notifyHandler, h, h2, h3, if_true, if_false, Bool.false_eq_true, beq_self_eq_true]

/-- With a truthy user id that is not in the user store, the COMPLETE branch
stops at `User not found` after the user read. -/
theorem notifyHandler_of_unknown_user (params : List (String × String)) (env : Option String)
    (store : Store) (flags : FailFlags) (uid : String) (h : sigOK params env = true)
    (h2 : lookupParam (stripSignature params) "payment_status" = some "COMPLETE")
    (h3 : resolveUserId (stripSignature params) = some uid)
    (h4 : uid ≠ "")
    (h5 : truthyNum (resolveAmount (stripSignature params)) = true)
    (h6 : store.users.find? (fun u => u.1 == uid) = none) :
    notifyHandler params env store flags = ⟨400, store, [StoreOp.userSelect uid]⟩ := by
  simp [notifyHandler, h, h2, h3, h5, h6, truthyStr, h4]

/-- Normal form of the handler on a valid COMPLETE notification for a known
user: the result is determined by the failure flags, with the RPC increment
first and the read-add-write fallback attempted exactly when the RPC fails. -/
theorem notifyHandler_complete (params : List (String × String)) (env : Option String)
    (store : Store) (flags : FailFlags) (uid : String) (q b : ℚ)
    (hsig : sigOK params env = true)
    (hst : lookupParam (stripSignature params) "payment_status" = some "COMPLETE")
    (huid : resolveUserId (stripSignature params) = some uid)
    (hu : uid ≠ "")
    (hamt : resolveAmount (stripSignature params) = some q)
    (hq : q ≠ 0)
    (hfind : store.users.find? (fun u => u.1 == uid) = some (uid, b)) :
    notifyHandler params env store flags =
      if flags.rpcFail then
        if flags.updateFail then
          ⟨500, store, [StoreOp.userSelect uid, StoreOp.rpcIncrement uid q,
            StoreOp.directUpdate uid (b + q)]⟩
        else
          finishNotify uid q (lookupParam (stripSignature params) "m_payment_id")
            (lookupParam (stripSignature params) "pf_payment_id")
            { store with users := setBalance store.users uid (b + q) } flags
            [StoreOp.userSelect uid, StoreOp.rpcIncrement uid q,
             StoreOp.directUpdate uid (b + q)]
      else
        finishNotify uid q (lookupParam (stripSignature params) "m_payment_id")
          (lookupParam (stripSignature params) "pf_payment_id")
          { store with users := incrementBalance store.users uid q } flags
          [StoreOp.userSelect uid, StoreOp.rpcIncrement uid q] := by
  simp [notifyHandler, hsig, hst, huid, hamt, hfind, truthyStr, truthyNum, hu, hq]

/-- The RPC increment leaves the first entry found for `uid` with its balance
raised by exactly the increment amount. -/
theorem find?_incrementBalance (users : List (String × ℚ)) (uid : String) (q b : ℚ)
    (h : users.find? (fun u => u.1 == uid) = some (uid, b)) :
    (incrementBalance users uid q).find? (fun u => u.1 == uid) = some (uid, b + q) := by
  induction users with
  | nil => simp [List.find?] at h
  | cons hd tl ih =>
    by_cases hh : (hd.1 == uid) = true
    · simp only [List.find?, hh] at h
      injection h with h
      subst h
      simp [incrementBalance, List.find?, hh]
    · simp only [List.find?, hh] at h
      have ih' := ih h
      simp only [incrementBalance, List.map_cons] at ih' ⊢
      rw [if_neg (by simp_all)]
      simp only [List.find?, hh]
      exact ih'

/-! ## Concrete notifications used by witnesses and counterexamples -/

/-- A configured shared passphrase (the value exercised in verify-signature.js). -/
def exEnv : Option String := some "Aa1011111111"

/-- Gateway fields of a legitimate COMPLETE notification for user "user-1". -/
def exFields : List (String × String) :=
  [("m_payment_id", "pay_1700000000000"), ("pf_payment_id", "PF123"),
   ("payment_status", "COMPLETE"), ("amount_gross", "100.00"), ("custom_str1", "user-1")]

/-- The notification of `exFields` carrying its correct signature. -/
def exParams : List (String × String) :=
  exFields ++ [("signature", expectedSignature exFields exEnv)]

/-- A store holding user "user-1" with balance 50 and a matching pending payment. -/
def exStore : Store :=
  ⟨[("user-1", 50)], [], [⟨"pay_1700000000000", "user-1", 100, "pending", none⟩]⟩

/-- The notification of `exFields` with `amount_gross` changed after signing
(100.00 became 999.00) and the signature left unchanged. -/
def tamperedParams : List (String × String) :=
  [("m_payment_id", "pay_1700000000000"), ("pf_payment_id", "PF123"),
   ("payment_status", "COMPLETE"), ("amount_gross", "999.00"), ("custom_str1", "user-1"),
   ("signature", expectedSignature exFields exEnv)]

/-- A correctly signed COMPLETE notification for a user id absent from `exStore`. -/
def ghostFields : List (String × String) :=
  [("m_payment_id", "pay_1700000000001"), ("pf_payment_id", "PF124"),
   ("payment_status", "COMPLETE"), ("amount_gross", "25.00"), ("custom_str1", "ghost")]

/-- The notification of `ghostFields` carrying its correct signature. -/
def ghostParams : List (String × String) :=
  ghostFields ++ [("signature", expectedSignature ghostFields exEnv)]

/-! ## Claim C1 -/

/-- C1: whenever the received signature differs from the recomputed one, the
webhook handler responds 400 and performs no store operation at all — the
store is returned unchanged and the operation trace is empty; in particular
the concrete notification whose `amount_gross` was changed from 100.00 to
999.00 after signing fails the signature comparison and is rejected with 400
before any store access. -/
theorem notify_rejects_signature_mismatch :
    (∀ params env store flags, sigOK params env = false →
      notifyHandler params env store flags = ⟨400, store, []⟩)
    ∧ sigOK tamperedParams exEnv = false
    ∧ notifyHandler tamperedParams exEnv exStore noFail = ⟨400, exStore, []⟩ := by
  refine ⟨fun params env store flags h => notifyHandler_of_bad_sig params env store flags h,
    by decide, ?_⟩
  exact notifyHandler_of_bad_sig tamperedParams exEnv exStore noFail (by decide)

/-- Witness for C1: a notification carrying the signature "deadbeef" over
fields it does not match is answered 400 with the store untouched. -/
theorem notify_rejects_signature_mismatch_witness :
    notifyHandler [("payment_status", "COMPLETE"), ("signature", "deadbeef")] (some "x")
      exStore noFail = ⟨400, exStore, []⟩ :=
  notify_rejects_signature_mismatch.1 _ _ _ _ (by decide)

/-! ## Claim C9 -/

/-- C9: a correctly signed COMPLETE notification whose correlation field names
a user id absent from the user store is answered with status 400, the store is
unchanged, and no write operation is attempted. -/
theorem notify_unknown_user_rejected :
    ∀ params env store flags uid,
      sigOK params env = true →
      lookupParam (stripSignature params) "payment_status" = some "COMPLETE" →
      resolveUserId (stripSignature params) = some uid →
      uid ≠ "" →
      store.users.find? (fun u => u.1 == uid) = none →
      (notifyHandler params env store flags).status = 400 ∧
      (notifyHandler params env store flags).store = store ∧
      ∀ op ∈ (notifyHandler params env store flags).ops, op.isWrite = false := by
  intro params env store flags uid h1 h2 h3 h4 h6
  by_cases h5 : truthyNum (resolveAmount (stripSignature params)) = true
  · rw [notifyHandler_of_unknown_user params env store flags uid h1 h2 h3 h4 h5 h6]
    refine ⟨rfl, rfl, ?_⟩
    intro op hop
    simp only [List.mem_singleton] at hop
    subst hop
    rfl
  · have h3' : (truthyStr (resolveUserId (stripSignature params)) &&
        truthyNum (resolveAmount (stripSignature params))) = false := by
      simp [Bool.not_eq_true] at h5
      simp [h5]
    rw [notifyHandler_of_missing_data params env store flags h1 h2 h3']
    exact ⟨rfl, rfl, by simp⟩

/-- Witness for C9: the correctly signed notification for the unknown user
"ghost" against `exStore` is rejected with 400, the store unchanged, and no
write attempted. -/
theorem notify_unknown_user_rejected_witness :
    (notifyHandler ghostParams exEnv exStore noFail).status = 400 ∧
    (notifyHandler ghostParams exEnv exStore noFail).store = exStore ∧
    ∀ op ∈ (notifyHandler ghostParams exEnv exStore noFail).ops, op.isWrite = false :=
  notify_unknown_user_rejected ghostParams exEnv exStore noFail "ghost"
    (by decide) (by decide) (by decide) (by decide) (by decide)

/-! ## Claim C5 -/

/-- A correctly signed COMPLETE notification whose `amount_gross` is "0.00",
for the known user "user-1". -/
def zeroFields : List (String × String) :=
  [("m_payment_id", "pay_1700000000002"), ("pf_payment_id", "PF125"),
   ("payment_status", "COMPLETE"), ("amount_gross", "0.00"), ("custom_str1", "user-1")]

/-- The notification of `zeroFields` carrying its correct signature. -/
def zeroParams : List (String × String) :=
  zeroFields ++ [("signature", expectedSignature zeroFields exEnv)]

/-- Counterexample to C5 as stated: `zeroParams` has a valid signature, status
COMPLETE and a correlation field naming the existing user "user-1", yet the
handler answers 400 and appends no transaction record (a zero notified amount
is falsy and trips the `Missing data` check). -/
theorem notify_complete_zero_amount_rejected :
    sigOK zeroParams exEnv = true ∧
    lookupParam (stripSignature zeroParams) "payment_status" = some "COMPLETE" ∧
    exStore.users.find? (fun u => u.1 == "user-1") = some ("user-1", 50) ∧
    resolveAmount (stripSignature zeroParams) = some 0 ∧
    (notifyHandler zeroParams exEnv exStore noFail).status = 400 ∧
    (notifyHandler zeroParams exEnv exStore noFail).store.transactions = [] := by
  refine ⟨by decide, by decide, rfl, ?_, ?_, ?_⟩
  · with_unfolding_all rfl
  · with_unfolding_all rfl
  · with_unfolding_all rfl

/-- C5 (amended: the notified amount must also parse to a nonzero number —
a zero amount is rejected with 400 and no transaction): a valid-signature
COMPLETE notification for a known user with nonzero parsed amount `q` is
acknowledged 200, the user's stored balance is raised by exactly `q`, and
exactly one transaction record is appended, referencing the payment
identifier (`m_payment_id`) and the gateway reference (`pf_payment_id`). -/
theorem notify_complete_applies_exactly_once :
    ∀ params env store uid q b,
      sigOK params env = true →
      lookupParam (stripSignature params) "payment_status" = some "COMPLETE" →
      resolveUserId (stripSignature params) = some uid →
      uid ≠ "" →
      resolveAmount (stripSignature params) = some q →
      q ≠ 0 →
      store.users.find? (fun u => u.1 == uid) = some (uid, b) →
      (notifyHandler params env store noFail).status = 200 ∧
      (notifyHandler params env store noFail).store.users.find? (fun u => u.1 == uid)
        = some (uid, b + q) ∧
      (notifyHandler params env store noFail).store.transactions =
        store.transactions ++
          [mkTxn uid q (lookupParam (stripSignature params) "m_payment_id")
            (lookupParam (stripSignature params) "pf_payment_id")] := by
  intro params env store uid q b h1 h2 h3 h4 h5 h6 h7
  rw [notifyHandler_complete params env store noFail uid q b h1 h2 h3 h4 h5 h6 h7]
  have hmid := find?_incrementBalance store.users uid q b h7
  refine ⟨by simp [noFail, finishNotify], ?_, by simp [noFail, finishNotify]⟩
  simpa [noFail, finishNotify] using hmid

/-- Witness for C5 (amended): the legitimate 100.00 notification `exParams`
against `exStore` yields 200, balance 50 + 100 for "user-1", and exactly the
one expected transaction row. -/
theorem notify_complete_applies_exactly_once_witness :
    (notifyHandler exParams exEnv exStore noFail).status = 200 ∧
    (notifyHandler exParams exEnv exStore noFail).store.users.find?
      (fun u => u.1 == "user-1") = some ("user-1", 50 + 100) ∧
    (notifyHandler exParams exEnv exStore noFail).store.transactions =
      exStore.transactions ++
        [mkTxn "user-1" 100 (lookupParam (stripSignature exParams) "m_payment_id")
          (lookupParam (stripSignature exParams) "pf_payment_id")] :=
  notify_complete_applies_exactly_once exParams exEnv exStore "user-1" 100 50
    (by decide) (by decide) (by decide) (by decide)
    (by with_unfolding_all rfl) (by norm_num) rfl

/-! ## Claim C7 -/

/-- C7: processing the identical valid COMPLETE notification twice applies the
increment twice — the final balance is the starting balance plus two times
the notified amount, and two identical transaction records are appended; no
deduplication guard exists on this path. -/
theorem notify_redelivery_double_applies :
    ∀ params env store uid q b,
      sigOK params env = true →
      lookupParam (stripSignature params) "payment_status" = some "COMPLETE" →
      resolveUserId (stripSignature params) = some uid →
      uid ≠ "" →
      resolveAmount (stripSignature params) = some q →
      q ≠ 0 →
      store.users.find? (fun u => u.1 == uid) = some (uid, b) →
      (notifyHandler params env
          (notifyHandler params env store noFail).store noFail).status = 200 ∧
      (notifyHandler params env
          (notifyHandler params env store noFail).store noFail).store.users.find?
        (fun u => u.1 == uid) = some (uid, b + 2 * q) ∧
      (notifyHandler params env
          (notifyHandler params env store noFail).store noFail).store.transactions =
        store.transactions ++
          [mkTxn uid q (lookupParam (stripSignature params) "m_payment_id")
            (lookupParam (stripSignature params) "pf_payment_id"),
           mkTxn uid q (lookupParam (stripSignature params) "m_payment_id")
            (lookupParam (stripSignature params) "pf_payment_id")] := by
  intro params env store uid q b h1 h2 h3 h4 h5 h6 h7
  rw [notifyHandler_complete params env store noFail uid q b h1 h2 h3 h4 h5 h6 h7]
  simp only [noFail, if_false, Bool.false_eq_true, finishNotify]
  have h7' : (incrementBalance store.users uid q).find? (fun u => u.1 == uid)
      = some (uid, b + q) := find?_incrementBalance store.users uid q b h7
  rw [notifyHandler_complete params env
    ⟨incrementBalance store.users uid q,
     store.transactions ++
       [mkTxn uid q (lookupParam (stripSignature params) "m_payment_id")
         (lookupParam (stripSignature params) "pf_payment_id")],
     completePayment store.payments (lookupParam (stripSignature params) "m_payment_id")
       (lookupParam (stripSignature params) "pf_payment_id")⟩
    ⟨false, false, false, false⟩ uid q (b + q) h1 h2 h3 h4 h5 h6 h7']
  have hfinal := find?_incrementBalance (incrementBalance store.users uid q) uid q (b + q) h7'
  have h2q : b + q + q = b + 2 * q := by ring
  refine ⟨by simp [noFail, finishNotify], ?_, by simp [noFail, finishNotify]⟩
  simpa [noFail, finishNotify, h2q] using hfinal

/-- Witness for C7: delivering `exParams` twice against `exStore` ends with
status 200, balance 50 + 2 * 100 for "user-1", and two identical transaction
rows. -/
theorem notify_redelivery_double_applies_witness :
    (notifyHandler exParams exEnv
        (notifyHandler exParams exEnv exStore noFail).store noFail).status = 200 ∧
    (notifyHandler exParams exEnv
        (notifyHandler exParams exEnv exStore noFail).store noFail).store.users.find?
      (fun u => u.1 == "user-1") = some ("user-1", 50 + 2 * 100) ∧
    (notifyHandler exParams exEnv
        (notifyHandler exParams exEnv exStore noFail).store noFail).store.transactions =
      exStore.transactions ++
        [mkTxn "user-1" 100 (lookupParam (stripSignature exParams) "m_payment_id")
          (lookupParam (stripSignature exParams) "pf_payment_id"),
         mkTxn "user-1" 100 (lookupParam (stripSignature exParams) "m_payment_id")
          (lookupParam (stripSignature exParams) "pf_payment_id")] :=
  notify_redelivery_double_applies exParams exEnv exStore "user-1" 100 50
    (by decide) (by decide) (by decide) (by decide)
    (by with_unfolding_all rfl) (by norm_num) rfl

/-! ## Claim C8 -/

/-- Success statuses as the gateway's retry logic reads them. -/
def isSuccess (n : Nat) : Bool := 200 ≤ n && n < 300

/-- Trace predicate: the fallback read-add-write balance update. -/
def isFallbackWrite : StoreOp → Bool
  | .directUpdate _ _ => true
  | _ => false

/-- C8: when the `increment_balance` RPC fails on a valid COMPLETE
notification, the handler attempts the read-current-add-write fallback exactly
once (writing the balance read before the RPC plus the amount); and if that
fallback write also fails, the response is 500 — not a success status — with
the store unchanged. -/
theorem notify_fallback_once_then_unacknowledged :
    ∀ params env store flags uid q b,
      sigOK params env = true →
      lookupParam (stripSignature params) "payment_status" = some "COMPLETE" →
      resolveUserId (stripSignature params) = some uid →
      uid ≠ "" →
      resolveAmount (stripSignature params) = some q →
      q ≠ 0 →
      store.users.find? (fun u => u.1 == uid) = some (uid, b) →
      flags.rpcFail = true →
      (notifyHandler params env store flags).ops.countP isFallbackWrite = 1 ∧
      ((notifyHandler params env store flags).ops.filter isFallbackWrite =
        [StoreOp.directUpdate uid (b + q)]) ∧
      (flags.updateFail = true →
        (notifyHandler params env store flags).status = 500 ∧
        isSuccess (notifyHandler params env store flags).status = false ∧
        (notifyHandler params env store flags).store = store) ∧
      (flags.updateFail = false →
        (notifyHandler params env store flags).store.users =
          setBalance store.users uid (b + q)) := by
  intro params env store flags uid q b h1 h2 h3 h4 h5 h6 h7 hrpc
  rw [notifyHandler_complete params env store flags uid q b h1 h2 h3 h4 h5 h6 h7]
  rw [hrpc]
  by_cases hud : flags.updateFail = true
  · rw [if_pos rfl, if_pos hud]
    refine ⟨by simp [List.countP_cons, isFallbackWrite], by simp [isFallbackWrite], ?_, ?_⟩
    · intro _
      refine ⟨rfl, ?_, rfl⟩
      show isSuccess 500 = false
      decide
    · intro hc
      rw [hud] at hc
      cases hc
  · rw [if_pos rfl, if_neg hud, finishNotify]
    refine ⟨?_, ?_, ?_, ?_⟩
    · simp [List.countP_append, List.countP_cons, isFallbackWrite]
    · simp [List.filter_append, isFallbackWrite]
    · intro hc
      exact absurd hc hud
    · intro _
      cases htx : flags.txFail <;> cases hpay : flags.payFail <;> simp [htx, hpay]

/-- Witness for C8: against `exStore`, the notification `exParams` with the
RPC and fallback both failing yields the unacknowledged 500 with the store
unchanged and exactly one fallback attempt writing 50 + 100. -/
theorem notify_fallback_once_then_unacknowledged_witness :
    (notifyHandler exParams exEnv exStore ⟨true, true, false, false⟩).ops.countP
      isFallbackWrite = 1 ∧
    ((notifyHandler exParams exEnv exStore ⟨true, true, false, false⟩).ops.filter
      isFallbackWrite = [StoreOp.directUpdate "user-1" (50 + 100)]) ∧
    (notifyHandler exParams exEnv exStore ⟨true, true, false, false⟩).status = 500 ∧
    isSuccess (notifyHandler exParams exEnv exStore ⟨true, true, false, false⟩).status
      = false ∧
    (notifyHandler exParams exEnv exStore ⟨true, true, false, false⟩).store = exStore := by
  have h := notify_fallback_once_then_unacknowledged exParams exEnv exStore
    ⟨true, true, false, false⟩ "user-1" 100 50
    (by decide) (by decide) (by decide) (by decide)
    (by with_unfolding_all rfl) (by norm_num) rfl rfl
  exact ⟨h.1, h.2.1, h.2.2.1 rfl⟩

/-! ## The spec's description of the signature builder (Claim C3)

The following definitions restate, word for word, the spec's description of
the signing algorithm (drop empty/null/undefined values; trim; percent-encode
with the space character rendered as `+`; join `key=value` with `&` in
insertion order; append the trimmed secret as `&passphrase=`; MD5, lowercase
hex).  They are then proved equal to the source translation above. -/

/-- Spec-side encoding of one character: a space becomes `+`, an unreserved
character stands as itself, anything else becomes the percent escapes of its
UTF-8 bytes. -/
def specEncodeChar (c : Char) : List Char :=
  if c = ' ' then ['+']
  else if uriUnreserved c then [c]
  else (utf8Char c).foldr (fun b a => pctByte b ++ a) []

/-- Spec-side value encoding. -/
def specEncode (s : String) : String :=
  String.mk (s.data.foldr (fun c acc => specEncodeChar c ++ acc) [])

/-- Spec-side field filtering: entries whose value is undefined, null, or the
empty string are dropped, others keep their string value, in order. -/
def specKeep (params : List (String × Option String)) : List (String × String) :=
  params.foldr (fun kv acc =>
    match kv.2 with
    | none => acc
    | some v => if v = "" then acc else (kv.1, v) :: acc) []

/-- Spec-side pre-hash string: trimmed encoded pairs joined with `&` in
insertion order, then `&passphrase=` and the trimmed secret. -/
def specStringToHash (params : List (String × Option String)) (secret : String) : String :=
  joinAmp ((specKeep params).map (fun kv => kv.1 ++ "=" ++ specEncode (jsTrim kv.2))) ++
    "&passphrase=" ++ jsTrim secret

/-- A character other than `%` passes through one replacement step. -/
theorem replacePct20_cons (c : Char) (rest : List Char) (hc : c ≠ '%') :
    replacePct20 (c :: rest) = c :: replacePct20 rest := by
  conv_lhs => rw [replacePct20.eq_def]
  split
  · rename_i h
    injection h with h1 _
    exact absurd h1 hc
  · rename_i h
    injection h with h1 h2
    subst h1
    subst h2
    rfl
  · rename_i h
    cases h

/-- Hex digits are never `%`. -/
theorem hexCharU_ne_pct (n : Nat) : hexCharU n ≠ '%' := by
  have hlt : n % 16 < 16 := Nat.mod_lt _ (by omega)
  have hk : ∀ j, j < 16 → hexDigitU j ≠ '%' := by decide
  exact hk _ hlt

/-- Only the byte 32 escapes to the hex digit pair ('2', '0'). -/
theorem hexCharU_pair (b : Nat) (hb : b < 256) (hne : b ≠ 32) :
    ¬(hexCharU (b / 16) = '2' ∧ hexCharU b = '0') := by
  rintro ⟨h2, h0⟩
  have e2 : b / 16 % 16 = 2 := by
    have hlt : b / 16 % 16 < 16 := Nat.mod_lt _ (by omega)
    have hk : ∀ j, j < 16 → hexDigitU j = '2' → j = 2 := by decide
    exact hk _ hlt h2
  have e0 : b % 16 = 0 := by
    have hlt : b % 16 < 16 := Nat.mod_lt _ (by omega)
    have hk : ∀ j, j < 16 → hexDigitU j = '0' → j = 0 := by decide
    exact hk _ hlt h0
  omega

/-- An escape other than `%20` passes through the replacement unchanged. -/
theorem replacePct20_pct (X Y : Char) (t : List Char) (hXY : ¬(X = '2' ∧ Y = '0'))
    (hX : X ≠ '%') (hY : Y ≠ '%') :
    replacePct20 ('%' :: X :: Y :: t) = '%' :: X :: Y :: replacePct20 t := by
  have h2 : replacePct20 (Y :: t) = Y :: replacePct20 t := replacePct20_cons Y t hY
  by_cases hx2 : X = '2'
  · subst hx2
    by_cases hy0 : Y = '0'
    · exact absurd ⟨rfl, hy0⟩ hXY
    · conv_lhs => rw [replacePct20.eq_def]
      split
      · rename_i h
        injection h with _ h
        injection h with _ h
        injection h with hy _
        exact absurd hy hy0
      · rename_i h
        injection h with h1 h2'
        subst h1
        subst h2'
        rw [replacePct20_cons _ _ (by decide), h2]
      · rename_i h
        cases h
  · conv_lhs => rw [replacePct20.eq_def]
    split
    · rename_i h
      injection h with _ h
      injection h with hx _
      exact absurd hx hx2
    · rename_i h
      injection h with h1 h2'
      subst h1
      subst h2'
      rw [replacePct20_cons _ _ hX, h2]
    · rename_i h
      cases h

/-- The escape of a byte other than 32 passes through the replacement. -/
theorem replacePct20_pctByte (b : Nat) (t : List Char) (hb : b < 256) (hne : b ≠ 32) :
    replacePct20 (pctByte b ++ t) = pctByte b ++ replacePct20 t := by
  show replacePct20 ('%' :: hexCharU (b / 16) :: hexCharU b :: t) = _
  rw [replacePct20_pct _ _ t (hexCharU_pair b hb hne) (hexCharU_ne_pct _) (hexCharU_ne_pct _)]
  rfl

/-- Valid characters stay below the Unicode bound. -/
theorem char_toNat_lt (c : Char) : c.toNat < 1114112 := by
  have h := c.valid
  rcases h with h | h
  · have hlt : c.toNat < 55296 := h
    omega
  · exact h.2

/-- UTF-8 bytes are bytes. -/
theorem utf8Char_lt (c : Char) : ∀ b ∈ utf8Char c, b < 256 := by
  intro b hb
  have hc := char_toNat_lt c
  simp only [utf8Char] at hb
  split at hb
  · simp only [List.mem_singleton] at hb
    omega
  · split at hb
    · simp only [List.mem_cons, List.mem_singleton, List.not_mem_nil, or_false] at hb
      rcases hb with hb | hb <;> omega
    · split at hb
      · simp only [List.mem_cons, List.mem_singleton, List.not_mem_nil, or_false] at hb
        rcases hb with hb | hb | hb <;> omega
      · simp only [List.mem_cons, List.mem_singleton, List.not_mem_nil, or_false] at hb
        rcases hb with hb | hb | hb | hb <;> omega

/-- Only the space character has a UTF-8 byte equal to 32. -/
theorem utf8Char_ne32 (c : Char) (hc : c ≠ ' ') : ∀ b ∈ utf8Char c, b ≠ 32 := by
  intro b hb
  have hcn : c.toNat ≠ 32 := by
    intro h
    apply hc
    have h1 : c = Char.ofNat c.toNat := (Char.ofNat_toNat c).symm
    rw [h] at h1
    rw [h1]
  simp only [utf8Char] at hb
  split at hb
  · simp only [List.mem_singleton] at hb
    omega
  · split at hb
    · simp only [List.mem_cons, List.mem_singleton, List.not_mem_nil, or_false] at hb
      rcases hb with hb | hb <;> omega
    · split at hb
      · simp only [List.mem_cons, List.mem_singleton, List.not_mem_nil, or_false] at hb
        rcases hb with hb | hb | hb <;> omega
      · simp only [List.mem_cons, List.mem_singleton, List.not_mem_nil, or_false] at hb
        rcases hb with hb | hb | hb | hb <;> omega

/-- A run of escapes of bytes other than 32 passes through the replacement. -/
theorem replacePct20_escapes (bs : List Nat) (t : List Char)
    (h : ∀ b ∈ bs, b < 256 ∧ b ≠ 32) :
    replacePct20 (bs.foldr (fun b a => pctByte b ++ a) [] ++ t) =
      bs.foldr (fun b a => pctByte b ++ a) [] ++ replacePct20 t := by
  induction bs with
  | nil => simp
  | cons b bs ih =>
    simp only [List.foldr_cons, List.append_assoc]
    rw [replacePct20_pctByte b _ (h b (List.mem_cons_self b bs)).1
      (h b (List.mem_cons_self b bs)).2]
    rw [ih (fun x hx => h x (List.mem_cons_of_mem b hx))]

/-- Unreserved characters are not `%`. -/
theorem uriUnreserved_ne_pct (c : Char) (h : uriUnreserved c = true) : c ≠ '%' := by
  intro he
  subst he
  simp [uriUnreserved] at h

/-- Unreserved characters are not the space. -/
theorem uriUnreserved_ne_space (c : Char) (h : uriUnreserved c = true) : c ≠ ' ' := by
  intro he
  subst he
  simp [uriUnreserved] at h

/-- One encoded character segment of `encodeURIComponent`, run through the
`%20` replacement, is exactly the spec-side encoding of that character. -/
theorem replacePct20_seg (c : Char) (t : List Char) :
    replacePct20 ((if uriUnreserved c then [c]
        else (utf8Char c).foldr (fun b a2 => pctByte b ++ a2) []) ++ t) =
      specEncodeChar c ++ replacePct20 t := by
  by_cases hu : uriUnreserved c = true
  · have hs : specEncodeChar c = [c] := by
      unfold specEncodeChar
      rw [if_neg (uriUnreserved_ne_space c hu), if_pos hu]
    rw [if_pos hu, hs]
    exact replacePct20_cons c t (uriUnreserved_ne_pct c hu)
  · rw [if_neg hu]
    by_cases hsp : c = ' '
    · subst hsp
      show replacePct20 ('%' :: '2' :: '0' :: t) = specEncodeChar ' ' ++ replacePct20 t
      rw [show specEncodeChar ' ' = ['+'] from rfl]
      rfl
    · have hs : specEncodeChar c = (utf8Char c).foldr (fun b a => pctByte b ++ a) [] := by
        unfold specEncodeChar
        rw [if_neg hsp, if_neg hu]
      rw [hs]
      exact replacePct20_escapes (utf8Char c) t
        (fun b hb => ⟨utf8Char_lt c b hb, utf8Char_ne32 c hsp b hb⟩)

/-- The source's encode-then-replace pipeline equals the spec's direct
space-as-plus encoding. -/
theorem formEncode_eq_specEncode (s : String) : formEncode s = specEncode s := by
  unfold formEncode specEncode encodeURIComponent
  congr 1
  induction s.data with
  | nil => rfl
  | cons c l ih =>
    simp only [List.foldr_cons]
    rw [replacePct20_seg c _]
    rw [ih]

/-- The spec-side filter is the source's filter followed by value extraction. -/
theorem specKeep_eq (params : List (String × Option String)) :
    specKeep params = (params.filter (fun kv => kv.2 != none && kv.2 != some "")).map
      (fun kv => (kv.1, kv.2.getD "undefined")) := by
  induction params with
  | nil => rfl
  | cons kv rest ih =>
    rcases kv with ⟨k, v⟩
    rcases v with _ | v
    · simpa [specKeep, List.filter] using ih
    · by_cases hv : v = ""
      · subst hv
        simpa [specKeep, List.filter] using ih
      · simp only [specKeep, List.foldr_cons] at ih ⊢
        rw [if_neg hv]
        simp only [List.filter, show ((some v != none) && (some v != some "")) = true by
          simp [bne, hv]]
        simp [ih, specKeep]

/-- The pre-hash string of the source builder equals the spec's description. -/
theorem stringToHash_eq_spec (params : List (String × Option String)) (secret : String) :
    (generatePayFastSignature params secret).stringToHash = specStringToHash params secret := by
  unfold specStringToHash
  rw [specKeep_eq, List.map_map]
  have hmap : (List.filter (fun kv => kv.2 != none && kv.2 != some "") params).map
      (fun kv => kv.1 ++ "=" ++ formEncode (jsTrim (kv.2.getD "undefined"))) =
      (List.filter (fun kv => kv.2 != none && kv.2 != some "") params).map
      ((fun kv : String × String => kv.1 ++ "=" ++ specEncode (jsTrim kv.2)) ∘
        (fun kv : String × Option String => (kv.1, kv.2.getD "undefined"))) := by
    apply List.map_congr_left
    intro kv _
    simp [Function.comp, formEncode_eq_specEncode]
  show joinAmp ((List.filter (fun kv => kv.2 != none && kv.2 != some "") params).map
      (fun kv => kv.1 ++ "=" ++ formEncode (jsTrim (kv.2.getD "undefined")))) ++
      "&passphrase=" ++ jsTrim secret = _
  rw [hmap]

/-- The digest always holds 16 bytes. -/
theorem md5Bytes_length (msg : List Nat) : (md5Bytes msg).length = 16 := by
  unfold md5Bytes
  simp [leBytes4]

/-- Hex rendering doubles the length. -/
theorem bytesToHex_length (bs : List Nat) : (bytesToHex bs).length = 2 * bs.length := by
  induction bs with
  | nil => rfl
  | cons b bs ih =>
    simp only [bytesToHex, List.foldr_cons, List.length_cons] at ih ⊢
    omega

/-- Every rendered hex character is a lowercase hex digit. -/
theorem hexChar_mem (n : Nat) : hexChar n ∈ hexDigits := by
  have hlt : n % 16 < 16 := Nat.mod_lt _ (by omega)
  exact List.mem_map.mpr ⟨n % 16, List.mem_range.mpr hlt, rfl⟩

/-- Every character of a hex rendering is a lowercase hex digit. -/
theorem bytesToHex_mem (bs : List Nat) : ∀ ch ∈ bytesToHex bs, ch ∈ hexDigits := by
  induction bs with
  | nil =>
    intro ch hch
    simp [bytesToHex] at hch
  | cons b bs ih =>
    intro ch hch
    simp only [bytesToHex, List.foldr_cons, List.mem_cons] at hch
    rcases hch with hch | hch | hch
    · subst hch
      exact hexChar_mem _
    · subst hch
      exact hexChar_mem _
    · exact ih ch hch

/-- The rendered digest has 32 characters. -/
theorem md5Hex_length (s : String) : (md5Hex s).data.length = 32 := by
  show (bytesToHex (md5Bytes (strBytes s))).length = 32
  rw [bytesToHex_length, md5Bytes_length]

/-- The rendered digest is lowercase hexadecimal. -/
theorem md5Hex_mem (s : String) : ∀ ch ∈ (md5Hex s).data, ch ∈ hexDigits := by
  intro ch hch
  exact bytesToHex_mem _ ch hch

/-! ## Claim C3 -/

/-- C3: for every ordered field mapping and secret, the builder's pre-hash
string is exactly the spec's description — empty/null/undefined values
dropped, remaining values trimmed and percent-encoded with space as `+`,
pairs joined `key=value` with `&` in insertion order, the trimmed secret
appended as `&passphrase=` — and the output is the MD5 digest of that string,
a 32-character lowercase-hex rendering. -/
theorem builder_matches_spec_description :
    ∀ (params : List (String × Option String)) (secret : String),
      (generatePayFastSignature params secret).stringToHash = specStringToHash params secret
      ∧ (generatePayFastSignature params secret).signature =
          md5Hex (specStringToHash params secret)
      ∧ (generatePayFastSignature params secret).signature.data.length = 32
      ∧ ∀ ch ∈ (generatePayFastSignature params secret).signature.data, ch ∈ hexDigits := by
  intro params secret
  have h := stringToHash_eq_spec params secret
  refine ⟨h, ?_, md5Hex_length _, fun ch hch => md5Hex_mem _ ch hch⟩
  show md5Hex ((generatePayFastSignature params secret).stringToHash) = _
  rw [h]

/-- Witness for C3: at the one-field mapping with secret "pass", the
pre-hash string matches the spec rendering, the digest length is 32, and the
first digest character is a lowercase hex digit. -/
theorem builder_matches_spec_description_witness :
    (generatePayFastSignature [("amount", some "100.00")] "pass").stringToHash =
      specStringToHash [("amount", some "100.00")] "pass" ∧
    (generatePayFastSignature [("amount", some "100.00")] "pass").signature.data.length = 32 ∧
    (generatePayFastSignature [("amount", some "100.00")] "pass").signature.data.getD 0 '0'
      ∈ hexDigits :=
  ⟨(builder_matches_spec_description [("amount", some "100.00")] "pass").1,
   (builder_matches_spec_description [("amount", some "100.00")] "pass").2.2.1,
   (builder_matches_spec_description [("amount", some "100.00")] "pass").2.2.2
     ((generatePayFastSignature [("amount", some "100.00")] "pass").signature.data.getD 0 '0')
     (by decide)⟩

/-! ## String-mutation and cancellation helpers -/

/-- Replacement of the `i`-th character of a string. -/
def mutateAt (s : String) (i : Nat) (c : Char) : String := String.mk (s.data.set i c)

/-- Two strings with the same character list are the same string. -/
theorem string_eq_of_data (x y : String) (h : x.data = y.data) : x = y := by
  cases x
  cases y
  exact congrArg String.mk h

/-- Setting a position below the length stores the new character there. -/
theorem getD_set_self (l : List Char) : ∀ i : Nat, i < l.length → ∀ c : Char,
    (l.set i c).getD i ' ' = c := by
  induction l with
  | nil => intro i h; simp at h
  | cons a t ih =>
    intro i h c
    cases i with
    | zero => rfl
    | succ j =>
      simp only [List.set, List.getD_cons_succ]
      exact ih j (by simpa using h) c

/-- Replacing a character of a string with a different one changes the string. -/
theorem mutateAt_ne (s : String) (i : Nat) (c : Char) (hi : i < s.data.length)
    (hc : c ≠ s.data.getD i ' ') : mutateAt s i c ≠ s := by
  intro he
  apply hc
  have hdata : s.data.set i c = s.data := congrArg String.data he
  calc c = (s.data.set i c).getD i ' ' := (getD_set_self s.data i hi c).symm
  _ = s.data.getD i ' ' := by rw [hdata]

/-- Different parameter strings under the same secret give different pre-hash
strings. -/
theorem stringToHash_ne_of_paramString_ne (p1 p2 : List (String × Option String))
    (secret : String)
    (h : (generatePayFastSignature p1 secret).paramString ≠
      (generatePayFastSignature p2 secret).paramString) :
    (generatePayFastSignature p1 secret).stringToHash ≠
      (generatePayFastSignature p2 secret).stringToHash := by
  intro heq
  apply h
  have hd : ((generatePayFastSignature p1 secret).paramString.data ++
        "&passphrase=".data ++ (jsTrim secret).data) =
      ((generatePayFastSignature p2 secret).paramString.data ++
        "&passphrase=".data ++ (jsTrim secret).data) := congrArg String.data heq
  rw [List.append_assoc, List.append_assoc] at hd
  exact string_eq_of_data _ _ (List.append_cancel_right hd)

/-- Secrets with different trimmed values give different pre-hash strings over
the same fields. -/
theorem stringToHash_ne_of_trim_ne (p : List (String × Option String)) (s1 s2 : String)
    (h : jsTrim s1 ≠ jsTrim s2) :
    (generatePayFastSignature p s1).stringToHash ≠
      (generatePayFastSignature p s2).stringToHash := by
  intro heq
  apply h
  have hd : ((generatePayFastSignature p s1).paramString.data ++
        "&passphrase=".data ++ (jsTrim s1).data) =
      ((generatePayFastSignature p s1).paramString.data ++
        "&passphrase=".data ++ (jsTrim s2).data) := congrArg String.data heq
  rw [List.append_assoc, List.append_assoc] at hd
  exact string_eq_of_data _ _ (List.append_cancel_left (List.append_cancel_left hd))

/-! ## Claim C2 -/

/-- Counterexample to C2 as stated: appending a trailing space to the secret
is a change to the secret, yet verification of a signature produced under the
original secret still succeeds, because the signing code trims the secret on
both sides of the comparison. -/
theorem verify_succeeds_after_whitespace_secret_change :
    "Aa1011111111 " ≠ "Aa1011111111" ∧
    verifySig exFields "Aa1011111111 " (signFields exFields "Aa1011111111") = true :=
  ⟨by decide, by decide⟩

/-- C2 (amended: a secret change must change the trimmed secret — whitespace
padding of the secret is invisible to verification; reorderings and trimmed
secret changes alter the pre-hash string, and concrete instances of both fail
verification): signing then verifying the same mapping under the same secret
always succeeds; any single-character mutation of the signature string fails
verification; any reordering of the fields that changes the concatenated
parameter string changes the pre-hash string the digest is computed over, and
a concrete reordering fails verification; any change to the trimmed secret
changes the pre-hash string, and a concrete secret change fails
verification. -/
theorem sign_verify_roundtrip_and_tamper :
    (∀ fields secret, verifySig fields secret (signFields fields secret) = true)
    ∧ (∀ fields secret i c, i < (signFields fields secret).data.length →
        c ≠ (signFields fields secret).data.getD i ' ' →
        verifySig fields secret (mutateAt (signFields fields secret) i c) = false)
    ∧ (∀ f1 f2 : List (String × String), ∀ secret, f1.Perm f2 →
        (generatePayFastSignature (wrapParams f1) secret).paramString ≠
          (generatePayFastSignature (wrapParams f2) secret).paramString →
        (generatePayFastSignature (wrapParams f1) secret).stringToHash ≠
          (generatePayFastSignature (wrapParams f2) secret).stringToHash)
    ∧ verifySig [("amount", "100.00"), ("item_name", "Deposit")] "pass"
        (signFields [("item_name", "Deposit"), ("amount", "100.00")] "pass") = false
    ∧ (∀ fields : List (String × String), ∀ s1 s2, jsTrim s1 ≠ jsTrim s2 →
        (generatePayFastSignature (wrapParams fields) s1).stringToHash ≠
          (generatePayFastSignature (wrapParams fields) s2).stringToHash)
    ∧ verifySig exFields "changedsecret" (signFields exFields "Aa1011111111") = false := by
  refine ⟨?_, ?_, ?_, by decide, ?_, by decide⟩
  · intro fields secret
    simp [verifySig]
  · intro fields secret i c hi hc
    simp only [verifySig, beq_eq_false_iff_ne, ne_eq]
    exact mutateAt_ne (signFields fields secret) i c hi hc
  · intro f1 f2 secret _ h
    exact stringToHash_ne_of_paramString_ne (wrapParams f1) (wrapParams f2) secret h
  · intro fields s1 s2 h
    exact stringToHash_ne_of_trim_ne (wrapParams fields) s1 s2 h

/-- Witness for C2 (amended): over the concrete fields of `exFields` and the
concrete secret, the round trip verifies; mutating position 0 of the signature
to '!' (never a hex digit) fails verification; and the concrete whitespace-free
secret change "changedsecret" against "Aa1011111111" changes the pre-hash
string. -/
theorem sign_verify_roundtrip_and_tamper_witness :
    verifySig exFields "Aa1011111111" (signFields exFields "Aa1011111111") = true ∧
    (0 < (signFields exFields "Aa1011111111").data.length ∧
      verifySig exFields "Aa1011111111"
        (mutateAt (signFields exFields "Aa1011111111") 0 '!') = false) ∧
    (generatePayFastSignature (wrapParams exFields) "changedsecret").stringToHash ≠
      (generatePayFastSignature (wrapParams exFields) "Aa1011111111").stringToHash :=
  ⟨sign_verify_roundtrip_and_tamper.1 exFields "Aa1011111111",
   ⟨by decide,
    sign_verify_roundtrip_and_tamper.2.1 exFields "Aa1011111111" 0 '!'
      (by decide) (by decide)⟩,
   sign_verify_roundtrip_and_tamper.2.2.2.2.1 exFields "changedsecret" "Aa1011111111"
     (by decide)⟩

/-! ## Claim C4 -/

/-- The field template exercised by the diagnostic scripts, keyed out of
insertion order so the sort is visible. -/
def c4Data : List (String × String) :=
  [("m_payment_id", "test_1"), ("amount", "100.00"), ("item_name", "Test Payment")]

/-- C4 fails on server.js: `generatePayFastSignature` appends a passphrase
segment to every pre-hash string, whatever the secret; with no configured
secret the call sites coerce `undefined` to the text "undefined", so the
hashed string ends in `&passphrase=undefined` instead of omitting the
segment.  Only the diagnostic script's `buildPayFastSignature`
(src/unnamed/part_004) omits the segment when no secret is configured, as the
claim requires. -/
theorem passphrase_segment_always_hashed :
    (∀ params pass, ∃ pre, (generatePayFastSignature params pass).stringToHash =
      pre ++ "&passphrase=" ++ jsTrim pass)
    ∧ (generatePayFastSignature [("amount", some "100.00")] (passphraseOf none)).stringToHash
      = "amount=100.00&passphrase=undefined"
    ∧ hasSubstr (generatePayFastSignature [("amount", some "100.00")]
        (passphraseOf none)).stringToHash "passphrase=" = true
    ∧ buildPayFastSignatureString c4Data none
      = "amount=100.00&item_name=Test+Payment&m_payment_id=test_1"
    ∧ hasSubstr (buildPayFastSignatureString c4Data none) "passphrase=" = false :=
  ⟨fun params pass => ⟨(generatePayFastSignature params pass).paramString, rfl⟩,
   by decide, by decide, by decide, by decide⟩

/-! ## Claim C10 -/

/-- C10: after a successful RPC balance increment on a valid COMPLETE
notification, failure of the transaction-record insert, or of the subsequent
payment-record update, does not change the response: the handler still answers
200 while the failed write leaves its table untouched — so a success
acknowledgement does not guarantee a transaction record was appended. -/
theorem notify_ack_despite_record_failures :
    ∀ params env store uid q b tf pf,
      sigOK params env = true →
      lookupParam (stripSignature params) "payment_status" = some "COMPLETE" →
      resolveUserId (stripSignature params) = some uid →
      uid ≠ "" →
      resolveAmount (stripSignature params) = some q →
      q ≠ 0 →
      store.users.find? (fun u => u.1 == uid) = some (uid, b) →
      (notifyHandler params env store ⟨false, false, tf, pf⟩).status = 200 ∧
      (notifyHandler params env store ⟨false, false, tf, pf⟩).store.users =
        incrementBalance store.users uid q ∧
      (tf = true →
        (notifyHandler params env store ⟨false, false, tf, pf⟩).store.transactions =
          store.transactions) ∧
      (pf = true →
        (notifyHandler params env store ⟨false, false, tf, pf⟩).store.payments =
          store.payments) := by
  intro params env store uid q b tf pf h1 h2 h3 h4 h5 h6 h7
  rw [notifyHandler_complete params env store ⟨false, false, tf, pf⟩ uid q b
    h1 h2 h3 h4 h5 h6 h7]
  simp only [if_false, Bool.false_eq_true, finishNotify]
  cases tf <;> cases pf <;> simp

/-- Witness for C10: with the transaction insert and payment update both
failing, `exParams` against `exStore` is still acknowledged 200, the balance
is written, and both ledger tables stay untouched. -/
theorem notify_ack_despite_record_failures_witness :
    (notifyHandler exParams exEnv exStore ⟨false, false, true, true⟩).status = 200 ∧
    (notifyHandler exParams exEnv exStore ⟨false, false, true, true⟩).store.users =
      incrementBalance exStore.users "user-1" 100 ∧
    (true = true →
      (notifyHandler exParams exEnv exStore ⟨false, false, true, true⟩).store.transactions =
        exStore.transactions) ∧
    (true = true →
      (notifyHandler exParams exEnv exStore ⟨false, false, true, true⟩).store.payments =
        exStore.payments) :=
  notify_ack_despite_record_failures exParams exEnv exStore "user-1" 100 50 true true
    (by decide) (by decide) (by decide) (by decide)
    (by with_unfolding_all rfl) (by norm_num) rfl

/-! ## Whitespace-freeness of the two-decimal rendering -/

/-- Dropping a whitespace run from a list with no whitespace drops nothing. -/
theorem dropWhile_jsWS_eq_self (l : List Char) (h : ∀ c ∈ l, jsWS c = false) :
    l.dropWhile jsWS = l := by
  cases l with
  | nil => rfl
  | cons a t => simp [List.dropWhile, h a (List.mem_cons_self a t)]

/-- Trimming a string with no whitespace characters returns it unchanged. -/
theorem jsTrim_eq_self (s : String) (h : ∀ c ∈ s.data, jsWS c = false) : jsTrim s = s := by
  unfold jsTrim
  rw [dropWhile_jsWS_eq_self s.data h]
  rw [dropWhile_jsWS_eq_self s.data.reverse (by
    intro c hc
    exact h c (List.mem_reverse.mp hc))]
  rw [List.reverse_reverse]

/-- Every character of `natDigits` is a decimal digit, so never whitespace. -/
theorem natDigits_not_ws (n : Nat) : ∀ c ∈ natDigits n, jsWS c = false := by
  induction n using Nat.strong_induction_on with
  | _ n ih =>
    intro c hc
    rw [natDigits] at hc
    have hdec : ∀ j, j < 10 → jsWS (Char.ofNat (48 + j)) = false := by decide
    by_cases hn : n < 10
    · rw [if_pos hn] at hc
      simp only [List.mem_singleton] at hc
      subst hc
      exact hdec (n % 10) (Nat.mod_lt _ (by omega))
    · rw [if_neg hn] at hc
      rcases List.mem_append.mp hc with hc | hc
      · exact ih (n / 10) (Nat.div_lt_self (by omega) (by omega)) c hc
      · simp only [List.mem_singleton] at hc
        subst hc
        exact hdec (n % 10) (Nat.mod_lt _ (by omega))

/-- The two-decimal rendering contains no whitespace. -/
theorem toFixed2_not_ws (q : ℚ) : ∀ c ∈ (toFixed2 q).data, jsWS c = false := by
  have hpad : ∀ (P : Prop) (hP : Decidable P), ∀ c ∈ (if P then "0" else "").data,
      jsWS c = false := by
    intro P hP c hc
    by_cases h : P
    · rw [if_pos h] at hc
      simp only [List.mem_singleton] at hc
      subst hc
      decide
    · rw [if_neg h] at hc
      simp at hc
  have hpos : ∀ r : ℚ, ∀ c ∈ (toFixed2Pos r).data, jsWS c = false := by
    intro r c hc
    unfold toFixed2Pos at hc
    rcases List.mem_append.mp hc with hc | hc
    · rcases List.mem_append.mp hc with hc | hc
      · rcases List.mem_append.mp hc with hc | hc
        · exact natDigits_not_ws _ c hc
        · simp only [List.mem_singleton] at hc
          subst hc
          decide
      · exact hpad _ _ c hc
    · exact natDigits_not_ws _ c hc
  intro c hc
  unfold toFixed2 at hc
  by_cases hq : q < 0
  · rw [if_pos hq] at hc
    rcases List.mem_append.mp hc with hc | hc
    · simp only [List.mem_singleton] at hc
      subst hc
      decide
    · exact hpos (-q) c hc
  · rw [if_neg hq] at hc
    exact hpos q c hc

/-- Trimming the two-decimal rendering changes nothing. -/
theorem jsTrim_toFixed2 (q : ℚ) : jsTrim (toFixed2 q) = toFixed2 q :=
  jsTrim_eq_self _ (toFixed2_not_ws q)

/-! ## Claim C6 -/

/-- A minimal field template differing only in the amount string. -/
def amountTemplate (a : String) : List (String × String) :=
  [("merchant_id", "10045849"), ("amount", a), ("item_name", "Savings Deposit")]

/-- C6: payment creation formats the amount to two decimals before anything is
signed or assembled: for every accepted amount `q > 0` the data object carries
`amount = toFixed2 q`, the signature is computed over that data, and the URL
query is exactly those pairs plus the signature; `toFixed2 100 = "100.00"`;
and signing "100" gives a different digest than signing "100.00" over the same
fields and secret. -/
theorem create_payment_signs_formatted_amount :
    (∀ (q : ℚ) (uid : String) (now : Nat) (env : Env) (store : Store) (pendingFail : Bool),
      0 < q → uid ≠ "" →
      lookupParam (createPaymentData q uid now env) "amount" = some (toFixed2 q)
      ∧ (createPayment (some q) (some uid) now env store pendingFail).status = 200
      ∧ (createPayment (some q) (some uid) now env store pendingFail).queryPairs =
          createPaymentData q uid now env ++
            [("signature", signFields (createPaymentData q uid now env)
              (passphraseOf env.passphrase))]
      ∧ ("amount", toFixed2 q) ∈
          (createPayment (some q) (some uid) now env store pendingFail).queryPairs
      ∧ (createPayment (some q) (some uid) now env store pendingFail).url =
          some (jsStringOfEnv env.payfast_base_url ++ "?" ++
            joinAmp ((createPaymentData q uid now env ++
              [("signature", signFields (createPaymentData q uid now env)
                (passphraseOf env.passphrase))]).map encPair)))
    ∧ toFixed2 100 = "100.00"
    ∧ signFields (amountTemplate "100") "testpass" ≠
        signFields (amountTemplate "100.00") "testpass" := by
  refine ⟨?_, by with_unfolding_all rfl, by decide⟩
  intro q uid now env store pendingFail hq huid
  have hq0 : q ≠ 0 := ne_of_gt hq
  have hle : ¬ q ≤ 0 := hq.not_le
  have htr : truthyNum (some q) = true := by simp [truthyNum, hq0]
  have hus : truthyStr (some uid) = true := by simp [truthyStr, huid]
  have hamt : lookupParam (createPaymentData q uid now env) "amount" = some (toFixed2 q) := by
    simp [createPaymentData, lookupParam, List.find?, jsTrim_toFixed2]
  refine ⟨hamt, ?_, ?_, ?_, ?_⟩
  · simp [createPayment, htr, hus, hle]
  · simp [createPayment, htr, hus, hle, signFields]
  · simp [createPayment, htr, hus, hle, createPaymentData, jsTrim_toFixed2]
  · simp [createPayment, htr, hus, hle, signFields]

/-- A fully configured environment for the create-payment witness. -/
def exCreateEnv : Env :=
  ⟨some "10045849", some "imirfuzwzn1a7", some "Aa1011111111",
   some "https://app.example", some "https://payfast.example"⟩

/-- Witness for C6: creating a deposit of 100 for "user-1" signs and returns
the amount as "100.00". -/
theorem create_payment_signs_formatted_amount_witness :
    lookupParam (createPaymentData 100 "user-1" 1700000000000 exCreateEnv) "amount"
      = some (toFixed2 100) ∧
    (createPayment (some 100) (some "user-1") 1700000000000 exCreateEnv exStore false).status
      = 200 ∧
    ("amount", toFixed2 100) ∈
      (createPayment (some 100) (some "user-1") 1700000000000 exCreateEnv exStore
        false).queryPairs := by
  have h := create_payment_signs_formatted_amount.1 100 "user-1" 1700000000000 exCreateEnv
    exStore false (by norm_num) (by decide)
  exact ⟨h.1, h.2.1, h.2.2.2.1⟩

end SavingWork
